import Mathlib

/-!
Verification development for the TaxClarity repository.

This file gives a shallow embedding of the deterministic tax engine
(`taxCalc.js`) and of the explain-route orchestration
(`src/routes/explain.js`), and proves the behavioural claims about them.

Modelling conventions:
* JS numbers are modelled as exact rationals (`ℚ`); `Math.round` is
  round-half-toward-positive-infinity (`jsRound`), `Math.ceil` is `Int.ceil`.
  Floating-point representation error is not modelled.
* Values that the source always produces via `Math.round` (base tax, cess,
  total tax) are typed `ℤ`, since `Math.round` returns an integer.
* Strings use Lean `String`; line splitting and trimming are implemented
  over `List Char` with the same semantics as `String.prototype.split('\n')`
  and `trim()` (ASCII whitespace).
-/

set_option maxHeartbeats 1000000

/-- JS `Math.round`: round half toward positive infinity. -/
def jsRound (x : ℚ) : ℤ := Int.floor (x + 1/2)

/-- One slab row of a tax slab table (`{ up_to, rate }` in `taxCalc.js`).
`up_to = none` models the JS `Infinity` sentinel of the last row. -/
structure Slab where
  up_to : Option ℚ
  rate : ℚ
deriving DecidableEq

/-- `CESS_RATE = 0.04` (taxCalc.js line 31). -/
def CESS_RATE : ℚ := 0.04

/-- `OLD_REGIME_STANDARD_DEDUCTION = 50_000` (taxCalc.js line 33). -/
def OLD_REGIME_STANDARD_DEDUCTION : ℚ := 50000

/-- `OLD_REGIME_MAX_80C = 150_000` (taxCalc.js line 34). -/
def OLD_REGIME_MAX_80C : ℚ := 150000

/-- `OLD_REGIME_MAX_80D = 25_000` (taxCalc.js line 35). -/
def OLD_REGIME_MAX_80D : ℚ := 25000

/-- `NEW_REGIME_STANDARD_DEDUCTION = 75_000` (taxCalc.js line 37). -/
def NEW_REGIME_STANDARD_DEDUCTION : ℚ := 75000

/-- `OLD_SLABS` (taxCalc.js lines 39-44). -/
def OLD_SLABS : List Slab :=
  [⟨some 250000, 0⟩, ⟨some 500000, 0.05⟩, ⟨some 1000000, 0.20⟩, ⟨none, 0.30⟩]

/-- `NEW_SLABS` (taxCalc.js lines 46-53). -/
def NEW_SLABS : List Slab :=
  [⟨some 300000, 0⟩, ⟨some 700000, 0.05⟩, ⟨some 1000000, 0.10⟩,
   ⟨some 1200000, 0.15⟩, ⟨some 1500000, 0.20⟩, ⟨none, 0.30⟩]

/-- The accumulation loop of `applySlabs` (taxCalc.js lines 66-75), written as
the sum still to be accumulated, given the current `prev` bracket floor.
Each step computes `slice = min(taxableIncome, up_to) - prev`, stops when the
slice is non-positive, adds `slice * rate`, and stops after any slab whose
ceiling covers `taxableIncome` (an `Infinity` ceiling, `up_to = none`, always
covers it). -/
def slabLoop (t : ℚ) : ℚ → List Slab → ℚ
  | _, [] => 0
  | prev, s :: rest =>
      match s.up_to with
      | none => if t - prev ≤ 0 then 0 else (t - prev) * s.rate
      | some c =>
          if min t c - prev ≤ 0 then 0
          else (min t c - prev) * s.rate + (if t ≤ c then 0 else slabLoop t c rest)

/-- `applySlabs(taxableIncome, slabs)` (taxCalc.js lines 63-78): returns 0 for
non-positive taxable income, else the rounded progressive slab sum. -/
def applySlabs (taxableIncome : ℚ) (slabs : List Slab) : ℤ :=
  if taxableIncome ≤ 0 then 0 else jsRound (slabLoop taxableIncome 0 slabs)

/-- The deduction set destructured by `computeOldRegime` (taxCalc.js
lines 104-109); each field defaults to 0 when absent. -/
structure Deductions where
  section80C : ℚ := 0
  section80D : ℚ := 0
  hra : ℚ := 0
  other : ℚ := 0
deriving DecidableEq

/-- The record returned by both regime calculators (taxCalc.js lines 128-137
and 159-168).  The human-readable `regime` tag is kept; the locale-formatted
recommendation string of the comparator is not modelled (no claim depends on
its text). -/
structure RegimeResult where
  regime : String
  grossSalary : ℚ
  totalDeductions : ℚ
  taxableIncome : ℚ
  baseTax : ℤ
  cess : ℤ
  totalTax : ℤ
  effectiveRate : ℚ
deriving DecidableEq

/-- JS `+x.toFixed(2)` on a non-negative value: round half up at two
decimal places. -/
def round2 (x : ℚ) : ℚ := (jsRound (x * 100) : ℚ) / 100

/-- `totalDeductions` of the old regime (taxCalc.js lines 111-115):
standard deduction plus clamped 80C, clamped 80D, HRA and other. -/
def oldTotalDeductions (d : Deductions) : ℚ :=
  OLD_REGIME_STANDARD_DEDUCTION + min d.section80C OLD_REGIME_MAX_80C +
    min d.section80D OLD_REGIME_MAX_80D + d.hra + d.other

/-- `taxableIncome` of the old regime (taxCalc.js line 117). -/
def oldTaxableIncome (g : ℚ) (d : Deductions) : ℚ :=
  max 0 (g - oldTotalDeductions d)

/-- `taxAfterRebate` of the old regime (taxCalc.js lines 118-121): slab tax,
forced to 0 by the section 87A rebate when taxable income ≤ 500000. -/
def oldTaxAfterRebate (g : ℚ) (d : Deductions) : ℤ :=
  if oldTaxableIncome g d ≤ 500000 then 0
  else applySlabs (oldTaxableIncome g d) OLD_SLABS

/-- `cess` of the old regime (taxCalc.js line 122). -/
def oldCess (g : ℚ) (d : Deductions) : ℤ :=
  if 0 < oldTaxAfterRebate g d
  then jsRound ((oldTaxAfterRebate g d : ℚ) * CESS_RATE) else 0

/-- `computeOldRegime(grossSalary, deductions)` (taxCalc.js lines 103-138). -/
def computeOldRegime (grossSalary : ℚ) (deductions : Deductions) : RegimeResult :=
  let totalTax := oldTaxAfterRebate grossSalary deductions + oldCess grossSalary deductions
  ⟨"old", grossSalary, oldTotalDeductions deductions,
    oldTaxableIncome grossSalary deductions,
    oldTaxAfterRebate grossSalary deductions,
    oldCess grossSalary deductions,
    totalTax,
    if 0 < grossSalary then round2 ((totalTax : ℚ) / grossSalary * 100) else 0⟩

/-- `taxableIncome` of the new regime (taxCalc.js line 148). -/
def newTaxableIncome (g : ℚ) : ℚ := max 0 (g - NEW_REGIME_STANDARD_DEDUCTION)

/-- `taxAfterRebate` of the new regime (taxCalc.js lines 149-152): slab tax,
forced to 0 by the rebate when taxable income ≤ 700000. -/
def newTaxAfterRebate (g : ℚ) : ℤ :=
  if newTaxableIncome g ≤ 700000 then 0
  else applySlabs (newTaxableIncome g) NEW_SLABS

/-- `cess` of the new regime (taxCalc.js line 153). -/
def newCess (g : ℚ) : ℤ :=
  if 0 < newTaxAfterRebate g then jsRound ((newTaxAfterRebate g : ℚ) * CESS_RATE) else 0

/-- `computeNewRegime(grossSalary)` (taxCalc.js lines 146-169). -/
def computeNewRegime (grossSalary : ℚ) : RegimeResult :=
  let totalTax := newTaxAfterRebate grossSalary + newCess grossSalary
  ⟨"new", grossSalary, NEW_REGIME_STANDARD_DEDUCTION,
    newTaxableIncome grossSalary,
    newTaxAfterRebate grossSalary,
    newCess grossSalary,
    totalTax,
    if 0 < grossSalary then round2 ((totalTax : ℚ) / grossSalary * 100) else 0⟩

/-- The record returned by `compareTaxRegimes` (taxCalc.js lines 193-199);
the locale-formatted `recommendation` string is not modelled. -/
structure Comparison where
  old : RegimeResult
  new : RegimeResult
  savings : ℤ
  betterRegime : String
deriving DecidableEq

/-- `compareTaxRegimes(grossSalary, deductions)` (taxCalc.js lines 178-200). -/
def compareTaxRegimes (grossSalary : ℚ) (deductions : Deductions) : Comparison :=
  let oldResult := computeOldRegime grossSalary deductions
  let newResult := computeNewRegime grossSalary
  let savings := oldResult.totalTax - newResult.totalTax
  ⟨oldResult, newResult, savings,
    if 0 < savings then "new" else if savings < 0 then "old" else "equal"⟩

example : applySlabs 500001 OLD_SLABS = 12500 := by
  norm_num [applySlabs, slabLoop, OLD_SLABS, jsRound, min_def]
example : applySlabs 700001 NEW_SLABS = 20000 := by
  norm_num [applySlabs, slabLoop, NEW_SLABS, jsRound, min_def]
example : (computeOldRegime 550001 {}).totalTax = 13000 := by
  norm_num [computeOldRegime, oldTaxAfterRebate, oldCess, oldTaxableIncome,
    oldTotalDeductions, OLD_REGIME_STANDARD_DEDUCTION, OLD_REGIME_MAX_80C,
    OLD_REGIME_MAX_80D, CESS_RATE, applySlabs, slabLoop, OLD_SLABS, jsRound, min_def]
example : (computeNewRegime 775001).totalTax = 20800 := by
  norm_num [computeNewRegime, newTaxAfterRebate, newCess, newTaxableIncome,
    NEW_REGIME_STANDARD_DEDUCTION, CESS_RATE, applySlabs, slabLoop, NEW_SLABS,
    jsRound, min_def]
example : (computeOldRegime 700000 ⟨150000, 25000, 0, 0⟩).totalTax = 0 := by
  norm_num [computeOldRegime, oldTaxAfterRebate, oldCess, oldTaxableIncome,
    oldTotalDeductions, OLD_REGIME_STANDARD_DEDUCTION, OLD_REGIME_MAX_80C,
    OLD_REGIME_MAX_80D, CESS_RATE, applySlabs, slabLoop, OLD_SLABS, jsRound, min_def]
example : (computeNewRegime 700000).totalTax = 0 := by
  norm_num [computeNewRegime, newTaxAfterRebate, newCess, newTaxableIncome,
    NEW_REGIME_STANDARD_DEDUCTION, CESS_RATE, applySlabs, slabLoop, NEW_SLABS,
    jsRound, min_def]

/-! ### Basic facts about rounding and the slab loop -/

theorem jsRound_mono {x y : ℚ} (h : x ≤ y) : jsRound x ≤ jsRound y :=
  Int.floor_le_floor (by linarith)

theorem jsRound_nonneg {x : ℚ} (h : 0 ≤ x) : 0 ≤ jsRound x :=
  Int.floor_nonneg.mpr (by linarith)

theorem OLD_SLABS_rate_nonneg : ∀ s ∈ OLD_SLABS, 0 ≤ s.rate := by
  intro s hs
  simp only [OLD_SLABS, List.mem_cons, List.not_mem_nil, or_false] at hs
  rcases hs with h | h | h | h <;> subst h <;> norm_num

theorem NEW_SLABS_rate_nonneg : ∀ s ∈ NEW_SLABS, 0 ≤ s.rate := by
  intro s hs
  simp only [NEW_SLABS, List.mem_cons, List.not_mem_nil, or_false] at hs
  rcases hs with h | h | h | h | h | h <;> subst h <;> norm_num

theorem slabLoop_nonneg (t : ℚ) :
    ∀ slabs : List Slab, (∀ s ∈ slabs, 0 ≤ s.rate) →
      ∀ prev, 0 ≤ slabLoop t prev slabs := by
  intro slabs
  induction slabs with
  | nil => intro _ prev; simp [slabLoop]
  | cons s rest ih =>
    intro hr prev
    have hs : 0 ≤ s.rate := hr s (List.mem_cons_self _ _)
    have hr' : ∀ x ∈ rest, 0 ≤ x.rate := fun x hx => hr x (List.mem_cons_of_mem _ hx)
    rcases s with ⟨u, r⟩
    cases u with
    | none =>
      simp only [slabLoop]
      split_ifs with h
      · exact le_refl 0
      · exact mul_nonneg (by linarith) hs
    | some c =>
      simp only [slabLoop]
      split_ifs with h1 h2
      · exact le_refl 0
      · have := mul_nonneg (by linarith : (0:ℚ) ≤ min t c - prev) hs
        linarith
      · have hrec := ih hr' c
        have := mul_nonneg (by linarith : (0:ℚ) ≤ min t c - prev) hs
        linarith


theorem slabLoop_mono {t1 t2 : ℚ} (h12 : t1 ≤ t2) :
    ∀ slabs : List Slab, (∀ s ∈ slabs, 0 ≤ s.rate) →
      ∀ prev, slabLoop t1 prev slabs ≤ slabLoop t2 prev slabs := by
  intro slabs
  induction slabs with
  | nil => intro _ prev; simp [slabLoop]
  | cons s rest ih =>
    intro hr prev
    have hs : 0 ≤ s.rate := hr s (List.mem_cons_self _ _)
    have hr' : ∀ x ∈ rest, 0 ≤ x.rate := fun x hx => hr x (List.mem_cons_of_mem _ hx)
    cases hu : s.up_to with
    | none =>
      simp only [slabLoop, hu]
      by_cases h2 : t2 - prev ≤ 0
      · rw [if_pos (by linarith : t1 - prev ≤ 0), if_pos h2]
      · by_cases h1 : t1 - prev ≤ 0
        · rw [if_pos h1, if_neg h2]
          exact mul_nonneg (by linarith) hs
        · rw [if_neg h1, if_neg h2]
          exact mul_le_mul_of_nonneg_right (by linarith) hs
    | some c =>
      have hmin : min t1 c ≤ min t2 c := min_le_min h12 le_rfl
      have hrec2 : 0 ≤ slabLoop t2 c rest := slabLoop_nonneg t2 rest hr' c
      simp only [slabLoop, hu]
      by_cases h2 : min t2 c - prev ≤ 0
      · rw [if_pos (by linarith : min t1 c - prev ≤ 0), if_pos h2]
      · by_cases h1 : min t1 c - prev ≤ 0
        · rw [if_pos h1, if_neg h2]
          have hslice : 0 ≤ (min t2 c - prev) * s.rate := mul_nonneg (by linarith) hs
          by_cases h6 : t2 ≤ c
          · rw [if_pos h6]; linarith
          · rw [if_neg h6]; linarith
        · rw [if_neg h1, if_neg h2]
          have hm : (min t1 c - prev) * s.rate ≤ (min t2 c - prev) * s.rate :=
            mul_le_mul_of_nonneg_right (by linarith) hs
          by_cases h4 : t1 ≤ c
          · by_cases h6 : t2 ≤ c
            · rw [if_pos h4, if_pos h6]; linarith
            · rw [if_pos h4, if_neg h6]; linarith
          · have h6 : ¬ t2 ≤ c := fun hc => h4 (le_trans h12 hc)
            rw [if_neg h4, if_neg h6]
            have hrec := ih hr' c
            linarith

theorem applySlabs_nonneg {slabs : List Slab} (hr : ∀ s ∈ slabs, 0 ≤ s.rate)
    (t : ℚ) : 0 ≤ applySlabs t slabs := by
  unfold applySlabs
  by_cases h : t ≤ 0
  · rw [if_pos h]
  · rw [if_neg h]
    exact jsRound_nonneg (slabLoop_nonneg t slabs hr 0)

theorem applySlabs_mono {slabs : List Slab} (hr : ∀ s ∈ slabs, 0 ≤ s.rate)
    {t1 t2 : ℚ} (h : t1 ≤ t2) : applySlabs t1 slabs ≤ applySlabs t2 slabs := by
  unfold applySlabs
  by_cases h2 : t2 ≤ 0
  · rw [if_pos (le_trans h h2), if_pos h2]
  · by_cases h1 : t1 ≤ 0
    · rw [if_pos h1, if_neg h2]
      exact jsRound_nonneg (slabLoop_nonneg t2 slabs hr 0)
    · rw [if_neg h1, if_neg h2]
      exact jsRound_mono (slabLoop_mono h slabs hr 0)

theorem CESS_RATE_nonneg : 0 ≤ CESS_RATE := by norm_num [CESS_RATE]

/-- The cess expression `b > 0 ? Math.round(b * CESS_RATE) : 0` is monotone. -/
theorem cessPart_mono {b1 b2 : ℤ} (h : b1 ≤ b2) :
    (if 0 < b1 then jsRound ((b1 : ℚ) * CESS_RATE) else 0)
      ≤ (if 0 < b2 then jsRound ((b2 : ℚ) * CESS_RATE) else 0) := by
  by_cases h1 : 0 < b1
  · rw [if_pos h1, if_pos (lt_of_lt_of_le h1 h)]
    exact jsRound_mono (mul_le_mul_of_nonneg_right (by exact_mod_cast h) CESS_RATE_nonneg)
  · rw [if_neg h1]
    by_cases h2 : 0 < b2
    · rw [if_pos h2]
      refine jsRound_nonneg (mul_nonneg ?_ CESS_RATE_nonneg)
      exact_mod_cast le_of_lt h2
    · rw [if_neg h2]

/-! ### Monotonicity and sign facts per regime -/

theorem oldTaxableIncome_nonneg (g : ℚ) (d : Deductions) :
    0 ≤ oldTaxableIncome g d := le_max_left 0 _

theorem oldTaxableIncome_mono (d : Deductions) {g1 g2 : ℚ} (h : g1 ≤ g2) :
    oldTaxableIncome g1 d ≤ oldTaxableIncome g2 d :=
  max_le_max le_rfl (sub_le_sub_right h _)

theorem oldTaxAfterRebate_nonneg (g : ℚ) (d : Deductions) :
    0 ≤ oldTaxAfterRebate g d := by
  unfold oldTaxAfterRebate
  by_cases h : oldTaxableIncome g d ≤ 500000
  · rw [if_pos h]
  · rw [if_neg h]
    exact applySlabs_nonneg OLD_SLABS_rate_nonneg _

theorem oldTaxAfterRebate_mono (d : Deductions) {g1 g2 : ℚ} (h : g1 ≤ g2) :
    oldTaxAfterRebate g1 d ≤ oldTaxAfterRebate g2 d := by
  have hti := oldTaxableIncome_mono d h
  unfold oldTaxAfterRebate
  by_cases h1 : oldTaxableIncome g1 d ≤ 500000
  · rw [if_pos h1]
    exact oldTaxAfterRebate_nonneg g2 d |>.trans_eq (by unfold oldTaxAfterRebate; rfl)
  · rw [if_neg h1, if_neg (fun h2 => h1 (le_trans hti h2))]
    exact applySlabs_mono OLD_SLABS_rate_nonneg hti

theorem oldCess_nonneg (g : ℚ) (d : Deductions) : 0 ≤ oldCess g d := by
  unfold oldCess
  by_cases h : 0 < oldTaxAfterRebate g d
  · rw [if_pos h]
    refine jsRound_nonneg (mul_nonneg ?_ CESS_RATE_nonneg)
    exact_mod_cast le_of_lt h
  · rw [if_neg h]

theorem newTaxableIncome_nonneg (g : ℚ) : 0 ≤ newTaxableIncome g := le_max_left 0 _

theorem newTaxableIncome_mono {g1 g2 : ℚ} (h : g1 ≤ g2) :
    newTaxableIncome g1 ≤ newTaxableIncome g2 :=
  max_le_max le_rfl (sub_le_sub_right h _)

theorem newTaxAfterRebate_nonneg (g : ℚ) : 0 ≤ newTaxAfterRebate g := by
  unfold newTaxAfterRebate
  by_cases h : newTaxableIncome g ≤ 700000
  · rw [if_pos h]
  · rw [if_neg h]
    exact applySlabs_nonneg NEW_SLABS_rate_nonneg _

theorem newTaxAfterRebate_mono {g1 g2 : ℚ} (h : g1 ≤ g2) :
    newTaxAfterRebate g1 ≤ newTaxAfterRebate g2 := by
  have hti := newTaxableIncome_mono h
  unfold newTaxAfterRebate
  by_cases h1 : newTaxableIncome g1 ≤ 700000
  · rw [if_pos h1]
    exact newTaxAfterRebate_nonneg g2 |>.trans_eq (by unfold newTaxAfterRebate; rfl)
  · rw [if_neg h1, if_neg (fun h2 => h1 (le_trans hti h2))]
    exact applySlabs_mono NEW_SLABS_rate_nonneg hti

theorem newCess_nonneg (g : ℚ) : 0 ≤ newCess g := by
  unfold newCess
  by_cases h : 0 < newTaxAfterRebate g
  · rw [if_pos h]
    refine jsRound_nonneg (mul_nonneg ?_ CESS_RATE_nonneg)
    exact_mod_cast le_of_lt h
  · rw [if_neg h]

/-! ### Claims about the tax engine -/

/-- Claim C1: for every gross income and deduction set,
`compareTaxRegimes(g, d).savings` equals
`computeOldRegime(g, d).totalTax - computeNewRegime(g).totalTax`, the two
calculators are called independently (the embedded fields are exactly their
results), and `betterRegime` is `"new"` when savings are positive, `"old"`
when negative and `"equal"` when zero. -/
theorem comparator_consistency (g : ℚ) (d : Deductions) :
    (compareTaxRegimes g d).old = computeOldRegime g d ∧
    (compareTaxRegimes g d).new = computeNewRegime g ∧
    (compareTaxRegimes g d).savings
      = (computeOldRegime g d).totalTax - (computeNewRegime g).totalTax ∧
    (compareTaxRegimes g d).betterRegime
      = (if 0 < (compareTaxRegimes g d).savings then "new"
         else if (compareTaxRegimes g d).savings < 0 then "old" else "equal") :=
  ⟨rfl, rfl, rfl, rfl⟩

/-- Claim C2: whenever the computed taxable income is at most 500000 (old
regime) respectively 700000 (new regime), the total tax is 0 regardless of the
slab computation; at taxable income exactly one unit above the threshold the
rebate does not apply and the full slab tax plus the rounded 4% cess is
charged — a sharp cliff. -/
theorem rebate_threshold_cliff (g : ℚ) (d : Deductions) :
    ((computeOldRegime g d).taxableIncome ≤ 500000 →
      (computeOldRegime g d).totalTax = 0) ∧
    ((computeNewRegime g).taxableIncome ≤ 700000 →
      (computeNewRegime g).totalTax = 0) ∧
    ((computeOldRegime g d).taxableIncome = 500001 →
      0 < (computeOldRegime g d).baseTax ∧
      (computeOldRegime g d).baseTax = applySlabs 500001 OLD_SLABS ∧
      (computeOldRegime g d).totalTax
        = applySlabs 500001 OLD_SLABS
            + jsRound ((applySlabs 500001 OLD_SLABS : ℚ) * CESS_RATE)) ∧
    ((computeNewRegime g).taxableIncome = 700001 →
      0 < (computeNewRegime g).baseTax ∧
      (computeNewRegime g).baseTax = applySlabs 700001 NEW_SLABS ∧
      (computeNewRegime g).totalTax
        = applySlabs 700001 NEW_SLABS
            + jsRound ((applySlabs 700001 NEW_SLABS : ℚ) * CESS_RATE)) := by
  refine ⟨?_, ?_, ?_, ?_⟩
  · intro h
    replace h : oldTaxableIncome g d ≤ 500000 := h
    show oldTaxAfterRebate g d + oldCess g d = 0
    have hb : oldTaxAfterRebate g d = 0 := by unfold oldTaxAfterRebate; rw [if_pos h]
    have hc : oldCess g d = 0 := by unfold oldCess; rw [hb]; norm_num
    rw [hb, hc]; norm_num
  · intro h
    replace h : newTaxableIncome g ≤ 700000 := h
    show newTaxAfterRebate g + newCess g = 0
    have hb : newTaxAfterRebate g = 0 := by unfold newTaxAfterRebate; rw [if_pos h]
    have hc : newCess g = 0 := by unfold newCess; rw [hb]; norm_num
    rw [hb, hc]; norm_num
  · intro h
    replace h : oldTaxableIncome g d = 500001 := h
    have hb : oldTaxAfterRebate g d = applySlabs 500001 OLD_SLABS := by
      unfold oldTaxAfterRebate
      rw [h, if_neg (by norm_num)]
    have hpos : 0 < applySlabs 500001 OLD_SLABS := by
      norm_num [applySlabs, slabLoop, OLD_SLABS, jsRound, min_def]
    refine ⟨?_, hb, ?_⟩
    · show 0 < oldTaxAfterRebate g d
      rw [hb]; exact hpos
    · show oldTaxAfterRebate g d + oldCess g d = _
      have hc : oldCess g d
          = jsRound ((applySlabs 500001 OLD_SLABS : ℚ) * CESS_RATE) := by
        unfold oldCess
        rw [hb, if_pos hpos]
      rw [hb, hc]
  · intro h
    replace h : newTaxableIncome g = 700001 := h
    have hb : newTaxAfterRebate g = applySlabs 700001 NEW_SLABS := by
      unfold newTaxAfterRebate
      rw [h, if_neg (by norm_num)]
    have hpos : 0 < applySlabs 700001 NEW_SLABS := by
      norm_num [applySlabs, slabLoop, NEW_SLABS, jsRound, min_def]
    refine ⟨?_, hb, ?_⟩
    · show 0 < newTaxAfterRebate g
      rw [hb]; exact hpos
    · show newTaxAfterRebate g + newCess g = _
      have hc : newCess g
          = jsRound ((applySlabs 700001 NEW_SLABS : ℚ) * CESS_RATE) := by
        unfold newCess
        rw [hb, if_pos hpos]
      rw [hb, hc]

/-- Witness for C2 at concrete inputs: taxable income 250000 (old) and 425000
(new) are rebated to zero tax; gross 550001 and 775001 put taxable income one
unit above the respective thresholds, where positive tax is charged. -/
theorem rebate_threshold_cliff_witness :
    (computeOldRegime 300000 ⟨0, 0, 0, 0⟩).totalTax = 0 ∧
    (computeNewRegime 500000).totalTax = 0 ∧
    0 < (computeOldRegime 550001 ⟨0, 0, 0, 0⟩).baseTax ∧
    0 < (computeNewRegime 775001).baseTax := by
  refine ⟨(rebate_threshold_cliff 300000 ⟨0, 0, 0, 0⟩).1 ?_,
          (rebate_threshold_cliff 500000 ⟨0, 0, 0, 0⟩).2.1 ?_,
          ((rebate_threshold_cliff 550001 ⟨0, 0, 0, 0⟩).2.2.1 ?_).1,
          ((rebate_threshold_cliff 775001 ⟨0, 0, 0, 0⟩).2.2.2 ?_).1⟩
  · show oldTaxableIncome 300000 ⟨0, 0, 0, 0⟩ ≤ 500000
    norm_num [oldTaxableIncome, oldTotalDeductions, OLD_REGIME_STANDARD_DEDUCTION,
      OLD_REGIME_MAX_80C, OLD_REGIME_MAX_80D, min_def]
  · show newTaxableIncome 500000 ≤ 700000
    norm_num [newTaxableIncome, NEW_REGIME_STANDARD_DEDUCTION]
  · show oldTaxableIncome 550001 ⟨0, 0, 0, 0⟩ = 500001
    norm_num [oldTaxableIncome, oldTotalDeductions, OLD_REGIME_STANDARD_DEDUCTION,
      OLD_REGIME_MAX_80C, OLD_REGIME_MAX_80D, min_def]
  · show newTaxableIncome 775001 = 700001
    norm_num [newTaxableIncome, NEW_REGIME_STANDARD_DEDUCTION]

/-- Claim C3: with the deduction set fixed, the total tax of each regime is a
non-decreasing function of the gross income. -/
theorem totalTax_monotone (d : Deductions) {g1 g2 : ℚ} (hg : g1 ≤ g2) :
    (computeOldRegime g1 d).totalTax ≤ (computeOldRegime g2 d).totalTax ∧
    (computeNewRegime g1).totalTax ≤ (computeNewRegime g2).totalTax := by
  constructor
  · show oldTaxAfterRebate g1 d + oldCess g1 d ≤ oldTaxAfterRebate g2 d + oldCess g2 d
    have hb := oldTaxAfterRebate_mono d hg
    refine add_le_add hb ?_
    show (if 0 < oldTaxAfterRebate g1 d
            then jsRound ((oldTaxAfterRebate g1 d : ℚ) * CESS_RATE) else 0) ≤ _
    exact cessPart_mono hb
  · show newTaxAfterRebate g1 + newCess g1 ≤ newTaxAfterRebate g2 + newCess g2
    have hb := newTaxAfterRebate_mono hg
    refine add_le_add hb ?_
    show (if 0 < newTaxAfterRebate g1
            then jsRound ((newTaxAfterRebate g1 : ℚ) * CESS_RATE) else 0) ≤ _
    exact cessPart_mono hb

/-- Witness for C3 at a concrete pair of gross incomes. -/
theorem totalTax_monotone_witness :
    (computeOldRegime 100000 ⟨0, 0, 0, 0⟩).totalTax
        ≤ (computeOldRegime 2000000 ⟨0, 0, 0, 0⟩).totalTax ∧
    (computeNewRegime 100000).totalTax ≤ (computeNewRegime 2000000).totalTax :=
  totalTax_monotone ⟨0, 0, 0, 0⟩ (by norm_num)

/-- Claim C4: the old regime clamps (rather than rejects) `section80C` above
150000 and `section80D` above 25000 when computing `totalDeductions`; with
`section80C = 200000` the clamped value 150000 enters the sum; the new regime
ignores itemized deductions entirely (its deduction total is the 75000
standard deduction, whatever `d` holds). -/
theorem deduction_clamping (g : ℚ) (d : Deductions) :
    (computeOldRegime g d).totalDeductions
      = 50000 + min d.section80C 150000 + min d.section80D 25000 + d.hra + d.other ∧
    (computeNewRegime g).totalDeductions = 75000 ∧
    (d.section80C = 200000 →
      (computeOldRegime g d).totalDeductions
        = 50000 + 150000 + min d.section80D 25000 + d.hra + d.other) := by
  have h1 : (computeOldRegime g d).totalDeductions
      = 50000 + min d.section80C 150000 + min d.section80D 25000 + d.hra + d.other := by
    show oldTotalDeductions d = _
    norm_num [oldTotalDeductions, OLD_REGIME_STANDARD_DEDUCTION,
      OLD_REGIME_MAX_80C, OLD_REGIME_MAX_80D]
  refine ⟨h1, rfl, fun h80 => ?_⟩
  rw [h1, h80]
  norm_num [min_def]

/-- Witness for C4: with `section80C = 200000` the old-regime deduction total
is 200000 (50000 standard + 150000 clamped), not 250000. -/
theorem deduction_clamping_witness :
    (computeOldRegime 500000 ⟨200000, 0, 0, 0⟩).totalDeductions = 200000 := by
  have h := (deduction_clamping 500000 ⟨200000, 0, 0, 0⟩).2.2 rfl
  rw [h]
  norm_num [min_def]

/-- A deduction set whose four fields are integers, as validated requests
supply (currency without fractional sub-units). -/
def intDeductions (c80 d80 hra oth : ℤ) : Deductions :=
  ⟨(c80 : ℚ), (d80 : ℚ), (hra : ℚ), (oth : ℚ)⟩

theorem oldTotalDeductions_int (c80 d80 hra oth : ℤ) :
    oldTotalDeductions (intDeductions c80 d80 hra oth)
      = ((50000 + min c80 150000 + min d80 25000 + hra + oth : ℤ) : ℚ) := by
  simp only [oldTotalDeductions, intDeductions, OLD_REGIME_STANDARD_DEDUCTION,
    OLD_REGIME_MAX_80C, OLD_REGIME_MAX_80D]
  push_cast
  ring

/-- Claim C5: for every valid input (non-negative integer gross income and
deduction fields), every monetary field of both regime results is a
non-negative integer, and the invariants
`taxableIncome = max(0, grossIncome - totalDeductions)` and
`totalTax = baseTax + cess` hold. -/
theorem regimeResult_invariants (g c80 d80 hra oth : ℤ)
    (hg : 0 ≤ g) (h80C : 0 ≤ c80) (h80D : 0 ≤ d80)
    (hhra : 0 ≤ hra) (hoth : 0 ≤ oth) :
    ∃ tDo tIo tIn : ℤ,
      0 ≤ tDo ∧ 0 ≤ tIo ∧ 0 ≤ tIn ∧
      (computeOldRegime (g:ℚ) (intDeductions c80 d80 hra oth)).totalDeductions = (tDo:ℚ) ∧
      (computeOldRegime (g:ℚ) (intDeductions c80 d80 hra oth)).taxableIncome = (tIo:ℚ) ∧
      (computeNewRegime (g:ℚ)).totalDeductions = ((75000:ℤ):ℚ) ∧
      (computeNewRegime (g:ℚ)).taxableIncome = (tIn:ℚ) ∧
      0 ≤ (computeOldRegime (g:ℚ) (intDeductions c80 d80 hra oth)).grossSalary ∧
      0 ≤ (computeOldRegime (g:ℚ) (intDeductions c80 d80 hra oth)).baseTax ∧
      0 ≤ (computeOldRegime (g:ℚ) (intDeductions c80 d80 hra oth)).cess ∧
      0 ≤ (computeOldRegime (g:ℚ) (intDeductions c80 d80 hra oth)).totalTax ∧
      0 ≤ (computeNewRegime (g:ℚ)).baseTax ∧
      0 ≤ (computeNewRegime (g:ℚ)).cess ∧
      0 ≤ (computeNewRegime (g:ℚ)).totalTax ∧
      (computeOldRegime (g:ℚ) (intDeductions c80 d80 hra oth)).taxableIncome
        = max 0 ((computeOldRegime (g:ℚ) (intDeductions c80 d80 hra oth)).grossSalary
            - (computeOldRegime (g:ℚ) (intDeductions c80 d80 hra oth)).totalDeductions) ∧
      (computeOldRegime (g:ℚ) (intDeductions c80 d80 hra oth)).totalTax
        = (computeOldRegime (g:ℚ) (intDeductions c80 d80 hra oth)).baseTax
            + (computeOldRegime (g:ℚ) (intDeductions c80 d80 hra oth)).cess ∧
      (computeNewRegime (g:ℚ)).taxableIncome
        = max 0 ((computeNewRegime (g:ℚ)).grossSalary
            - (computeNewRegime (g:ℚ)).totalDeductions) ∧
      (computeNewRegime (g:ℚ)).totalTax
        = (computeNewRegime (g:ℚ)).baseTax + (computeNewRegime (g:ℚ)).cess := by
  have hD := oldTotalDeductions_int c80 d80 hra oth
  have hminC : (0:ℤ) ≤ min c80 150000 := le_min h80C (by norm_num)
  have hminD : (0:ℤ) ≤ min d80 25000 := le_min h80D (by norm_num)
  refine ⟨50000 + min c80 150000 + min d80 25000 + hra + oth,
          max 0 (g - (50000 + min c80 150000 + min d80 25000 + hra + oth)),
          max 0 (g - 75000),
          by linarith, le_max_left _ _, le_max_left _ _, hD, ?_,
          by show NEW_REGIME_STANDARD_DEDUCTION = ((75000:ℤ):ℚ)
             norm_num [NEW_REGIME_STANDARD_DEDUCTION], ?_,
          by show (0:ℚ) ≤ (g:ℚ)
             exact_mod_cast hg,
          oldTaxAfterRebate_nonneg _ _, oldCess_nonneg _ _,
          add_nonneg (oldTaxAfterRebate_nonneg _ _) (oldCess_nonneg _ _),
          newTaxAfterRebate_nonneg _, newCess_nonneg _,
          add_nonneg (newTaxAfterRebate_nonneg _) (newCess_nonneg _),
          rfl, rfl, rfl, rfl⟩
  · show oldTaxableIncome (g:ℚ) (intDeductions c80 d80 hra oth) = _
    unfold oldTaxableIncome
    rw [hD]
    exact_mod_cast rfl
  · show newTaxableIncome (g:ℚ) = _
    unfold newTaxableIncome NEW_REGIME_STANDARD_DEDUCTION
    exact_mod_cast rfl

/-- Witness for C5 at a concrete valid input. -/
theorem regimeResult_invariants_witness :
    0 ≤ (computeOldRegime ((1000000:ℤ):ℚ) (intDeductions 150000 25000 10000 0)).totalTax ∧
    (computeOldRegime ((1000000:ℤ):ℚ) (intDeductions 150000 25000 10000 0)).totalTax
      = (computeOldRegime ((1000000:ℤ):ℚ) (intDeductions 150000 25000 10000 0)).baseTax
        + (computeOldRegime ((1000000:ℤ):ℚ) (intDeductions 150000 25000 10000 0)).cess := by
  obtain ⟨tDo, tIo, tIn, _, _, _, _, _, _, _, _, _, _, hTot, _, _, _, _, hEq, _, _⟩ :=
    regimeResult_invariants 1000000 150000 25000 10000 0 (by norm_num) (by norm_num)
      (by norm_num) (by norm_num) (by norm_num)
  exact ⟨hTot, hEq⟩

/-- Claim C10: the calculators are total on every rational input: the slab
function returns 0 for any non-positive taxable income, the taxable income is
forced non-negative by `max(0, ...)`, and whenever the gross income does not
exceed the total deductions (including negative gross income) the result has
`taxableIncome = 0` and `totalTax = 0`. -/
theorem calculators_total_on_all_inputs (g t : ℚ) (d : Deductions) (slabs : List Slab) :
    (t ≤ 0 → applySlabs t slabs = 0) ∧
    0 ≤ (computeOldRegime g d).taxableIncome ∧
    0 ≤ (computeNewRegime g).taxableIncome ∧
    (g ≤ (computeOldRegime g d).totalDeductions →
      (computeOldRegime g d).taxableIncome = 0 ∧ (computeOldRegime g d).totalTax = 0) ∧
    (g ≤ (computeNewRegime g).totalDeductions →
      (computeNewRegime g).taxableIncome = 0 ∧ (computeNewRegime g).totalTax = 0) := by
  refine ⟨fun h => by unfold applySlabs; rw [if_pos h],
          oldTaxableIncome_nonneg g d, newTaxableIncome_nonneg g, ?_, ?_⟩
  · intro hgd
    replace hgd : g ≤ oldTotalDeductions d := hgd
    have hti : oldTaxableIncome g d = 0 := by
      unfold oldTaxableIncome
      exact max_eq_left (by linarith)
    have hb : oldTaxAfterRebate g d = 0 := by
      unfold oldTaxAfterRebate
      rw [hti, if_pos (by norm_num)]
    have hc : oldCess g d = 0 := by
      unfold oldCess
      rw [hb]; norm_num
    refine ⟨hti, ?_⟩
    show oldTaxAfterRebate g d + oldCess g d = 0
    rw [hb, hc]; norm_num
  · intro hgd
    replace hgd : g ≤ NEW_REGIME_STANDARD_DEDUCTION := hgd
    have hti : newTaxableIncome g = 0 := by
      unfold newTaxableIncome
      exact max_eq_left (by linarith)
    have hb : newTaxAfterRebate g = 0 := by
      unfold newTaxAfterRebate
      rw [hti, if_pos (by norm_num)]
    have hc : newCess g = 0 := by
      unfold newCess
      rw [hb]; norm_num
    refine ⟨hti, ?_⟩
    show newTaxAfterRebate g + newCess g = 0
    rw [hb, hc]; norm_num

/-- Witness for C10 at concrete out-of-range inputs: negative taxable income,
negative gross income, and deductions exceeding the gross income. -/
theorem calculators_total_on_all_inputs_witness :
    applySlabs (-1) OLD_SLABS = 0 ∧
    (computeOldRegime (-5) ⟨-100, 0, 0, 0⟩).taxableIncome = 0 ∧
    (computeOldRegime (-5) ⟨-100, 0, 0, 0⟩).totalTax = 0 ∧
    (computeNewRegime (-5)).taxableIncome = 0 ∧
    (computeNewRegime (-5)).totalTax = 0 := by
  have h := calculators_total_on_all_inputs (-5) (-1) ⟨-100, 0, 0, 0⟩ OLD_SLABS
  have hOld := h.2.2.2.1 (by
    show (-5:ℚ) ≤ oldTotalDeductions ⟨-100, 0, 0, 0⟩
    norm_num [oldTotalDeductions, OLD_REGIME_STANDARD_DEDUCTION,
      OLD_REGIME_MAX_80C, OLD_REGIME_MAX_80D, min_def])
  have hNew := h.2.2.2.2 (by
    show (-5:ℚ) ≤ NEW_REGIME_STANDARD_DEDUCTION
    norm_num [NEW_REGIME_STANDARD_DEDUCTION])
  exact ⟨h.1 (by norm_num), hOld.1, hOld.2, hNew.1, hNew.2⟩

/-! ### Embedding of the explain route (`src/routes/explain.js`) -/

/-- A retrieved chunk as consumed by the route (`queryTopK` result items with
optional metadata fields, explain.js lines 59-63 and 179-184). -/
structure Chunk where
  text : String
  file : Option String := none
  page : Option Nat := none
  chunk_id : Option Nat := none
deriving DecidableEq

/-- A generation error signal.  `is429` embeds the test
`err.message?.includes('429') || err.status === 429` (explain.js line 105);
`retryHintSec` embeds the numeric capture of the regex
`/retry in ([\d.]+)s/i` applied to the message (explain.js line 52), already
parsed, `none` when the pattern does not match. -/
structure GenError where
  is429 : Bool
  retryHintSec : Option ℚ
  message : String
deriving DecidableEq

/-- Outcome of one `model.generateContent(prompt)` call (explain.js
line 100), abstracted as a function of the model name and attempt index. -/
inductive GenOutcome where
  | ok (text : String)
  | failed (e : GenError)
deriving DecidableEq

/-- `parseRetryDelay(errMsg, defaultSec = 10)` (explain.js lines 51-54):
`Math.ceil(parseFloat(match[1])) * 1000` when the retry hint is present,
else `defaultSec * 1000`.  Returns milliseconds. -/
def parseRetryDelay (e : GenError) : ℤ :=
  match e.retryHintSec with
  | some s => Int.ceil s * 1000
  | none => 10 * 1000

/-- One attempt recorded by the fallback loop: which model, which attempt
index (0-based, as in the `for (let attempt = 0; attempt < 2; ...)` loop),
and the backoff slept immediately after this attempt, if any. -/
structure Attempt where
  model : String
  attemptIndex : ℕ
  sleptMs : Option ℤ
deriving DecidableEq

/-- The inner `for (let attempt ...)` loop of `callGemini` for one model
(explain.js lines 97-116): one attempt; on a 429 failure of attempt 0, sleep
`parseRetryDelay` and retry the same model once; any other failure, or a
failure of attempt 1, abandons the model. -/
def tryModelTwice (b : String → ℕ → GenOutcome) (m : String) :
    List Attempt × Except GenError String :=
  match b m 0 with
  | .ok t => ([⟨m, 0, none⟩], .ok t)
  | .failed e =>
      if e.is429 then
        match b m 1 with
        | .ok t => ([⟨m, 0, some (parseRetryDelay e)⟩, ⟨m, 1, none⟩], .ok t)
        | .failed e2 => ([⟨m, 0, some (parseRetryDelay e)⟩, ⟨m, 1, none⟩], .error e2)
      else ([⟨m, 0, none⟩], .error e)

/-- The outer `for (const modelName of GEMINI_MODELS)` loop of `callGemini`
(explain.js lines 95-118), carrying `lastErr`; when every model is exhausted
the last error is thrown. -/
def callGeminiFrom (b : String → ℕ → GenOutcome) (lastErr : GenError) :
    List String → List Attempt × Except GenError String
  | [] => ([], .error lastErr)
  | m :: rest =>
      match tryModelTwice b m with
      | (as, .ok t) => (as, .ok t)
      | (as, .error e) =>
          let r := callGeminiFrom b e rest
          (as ++ r.1, r.2)

/-- The value of `let lastErr` before any attempt (JS `undefined`); it is
only thrown when the model list is empty, which the source never does. -/
def beforeAnyError : GenError := ⟨false, none, ""⟩

/-- `callGemini` (explain.js lines 56-119) restricted to its control flow:
prompt construction does not influence the fallback behaviour and is
abstracted into the behaviour function `b`. -/
def callGemini (b : String → ℕ → GenOutcome) (models : List String) :
    List Attempt × Except GenError String :=
  callGeminiFrom b beforeAnyError models

/-! ### Bullet extraction (explain.js lines 164-169) -/

/-- The whitespace recognised by `trim()` on the ASCII range. -/
def isJsSpace (c : Char) : Bool := c = ' ' || c = '\t' || c = '\n' || c = '\r'

/-- `line.trim()` over a character list. -/
def trimChars (l : List Char) : List Char :=
  ((l.dropWhile isJsSpace).reverse.dropWhile isJsSpace).reverse

/-- The filter class `[-•*\d]` of explain.js line 167. -/
def isBulletStart (c : Char) : Bool := c = '-' || c = '•' || c = '*' || c.isDigit

/-- The strip class `[-•*\d.]` of explain.js line 168. -/
def isMarkerChar (c : Char) : Bool := isBulletStart c || c = '.'

/-- Whether a raw line begins with a bullet-marker character. -/
def startsWithBullet (l : List Char) : Bool :=
  match l with
  | c :: _ => isBulletStart c
  | [] => false

/-- `line.replace(/^[-•*\d.]+\s*/, '')`: the anchored pattern matches only
when the first character is in the strip class; it then removes the maximal
marker run and the following whitespace, else leaves the line unchanged. -/
def stripMarker (l : List Char) : List Char :=
  match l with
  | c :: _ => if isMarkerChar c then (l.dropWhile isMarkerChar).dropWhile isJsSpace else l
  | [] => []

/-- `text.split('\n')` over a character list: split at every newline, keeping
empty segments. -/
def splitLinesAux : List Char → List Char → List (List Char)
  | acc, [] => [acc.reverse]
  | acc, c :: cs =>
      if c = '\n' then acc.reverse :: splitLinesAux [] cs
      else splitLinesAux (c :: acc) cs

/-- `text.split('\n')`. -/
def splitLines (s : String) : List (List Char) := splitLinesAux [] s.data

/-- The bullet extraction chain of explain.js lines 165-169:
`split('\n').filter(line => line.trim().match(/^[-•*\d]/))
.map(line => line.replace(/^[-•*\d.]+\s*/, '').trim()).filter(Boolean)`. -/
def extractBullets (text : String) : List String :=
  ((((splitLines text).filter (fun l => startsWithBullet (trimChars l))).map
      (fun l => trimChars (stripMarker l))).filter (fun l => !l.isEmpty)).map
    (fun l => String.mk l)

/-- Modelled from the claim's words (C9): the lines of the text that begin
with a bullet marker, in order, each with its leading marker run and the
following whitespace stripped and the result trimmed, empty results
dropped. -/
def extractBulletsClaim (text : String) : List String :=
  (splitLines text).filterMap (fun l =>
    if startsWithBullet l then
      if (trimChars ((l.dropWhile isMarkerChar).dropWhile isJsSpace)).isEmpty then none
      else some (String.mk (trimChars ((l.dropWhile isMarkerChar).dropWhile isJsSpace)))
    else none)

/-- The amended description of the extraction: select the lines whose
whitespace-trimmed form begins with a bullet marker; strip the marker run
(and following whitespace) only when it starts at the very first character of
the raw line; trim; drop empty results. -/
def extractBulletsAmended (text : String) : List String :=
  (splitLines text).filterMap (fun l =>
    if startsWithBullet (trimChars l) then
      if (trimChars (stripMarker l)).isEmpty then none
      else some (String.mk (trimChars (stripMarker l)))
    else none)

/-! ### Request validation and the route handler (explain.js lines 25-36 and 132-226) -/

/-- A raw JSON field value, at the granularity the Zod schema distinguishes:
a number, a string, or anything else. -/
inductive JField where
  | num (q : ℚ)
  | str (s : String)
  | other
deriving DecidableEq

/-- The raw `deductions` object of the request body; `none` marks an absent
field (Zod `.default(0)` applies). -/
structure RawDeductions where
  section80C : Option JField := none
  section80D : Option JField := none
  hra : Option JField := none
  other : Option JField := none
deriving DecidableEq

/-- The raw request body fields inspected by `ExplainSchema`. -/
structure RawRequest where
  salary : Option JField := none
  deductions : Option RawDeductions := none
  query : Option JField := none
deriving DecidableEq

/-- A request that passed validation (`parsed.data`). -/
structure ParsedRequest where
  salary : ℚ
  deductions : Deductions
  query : Option String
deriving DecidableEq

/-- Errors for `salary: z.number().positive(...)` (explain.js line 33):
missing, non-numeric, or not strictly positive. -/
def salaryErrors (raw : RawRequest) : List String :=
  match raw.salary with
  | some (.num q) => if 0 < q then [] else ["salary"]
  | _ => ["salary"]

/-- A numeric deduction value is accepted when within `[0, max]` (Zod
`.min(0).max(bound)`), or `[0, ∞)` when there is no upper bound. -/
def boundOk (q : ℚ) : Option ℚ → Bool
  | some m => decide (0 ≤ q) && decide (q ≤ m)
  | none => decide (0 ≤ q)

/-- Validation of one deduction field: absent defaults to 0, a numeric value
is bound-checked, anything else is a type error. -/
def dedFieldCheck (nm : String) (maxB : Option ℚ) : Option JField → List String × ℚ
  | none => ([], 0)
  | some (.num q) => if boundOk q maxB then ([], q) else ([nm], 0)
  | some _ => ([nm], 0)

/-- `DeductionsSchema` (explain.js lines 25-30). -/
def validateDeductions (rd : RawDeductions) : List String × Deductions :=
  let c := dedFieldCheck "deductions.section80C" (some 150000) rd.section80C
  let d := dedFieldCheck "deductions.section80D" (some 25000) rd.section80D
  let h := dedFieldCheck "deductions.hra" none rd.hra
  let o := dedFieldCheck "deductions.other" none rd.other
  (c.1 ++ d.1 ++ h.1 ++ o.1, ⟨c.2, d.2, h.2, o.2⟩)

/-- Errors for `query: z.string().max(500).optional()` (explain.js line 35). -/
def queryErrors (raw : RawRequest) : List String :=
  match raw.query with
  | none => []
  | some (.str s) => if s.length ≤ 500 then [] else ["query"]
  | some _ => ["query"]

/-- The validated `query` value. -/
def parsedQuery (raw : RawRequest) : Option String :=
  match raw.query with
  | some (.str s) => some s
  | _ => none

/-- An absent `deductions` object (the schema's `.default({})`). -/
def emptyRawDeductions : RawDeductions := ⟨none, none, none, none⟩

/-- `ExplainSchema.safeParse(req.body)` (explain.js lines 32-36, 134-140):
either the parsed data, or the list of invalid field names. -/
def validateRequest (raw : RawRequest) : Except (List String) ParsedRequest :=
  let dved := validateDeductions (raw.deductions.getD emptyRawDeductions)
  let errs := salaryErrors raw ++ dved.1 ++ queryErrors raw
  match raw.salary with
  | some (.num q) =>
      if 0 < q ∧ errs = [] then .ok ⟨q, dved.2, parsedQuery raw⟩ else .error errs
  | _ => .error errs

/-- The trimmed per-regime view placed in the response `taxNumbers`
(explain.js lines 190-201). -/
structure TrimmedRegime where
  taxableIncome : ℚ
  totalTax : ℤ
  effectiveRate : ℚ
  totalDeductions : ℚ
deriving DecidableEq

/-- Projection of a `RegimeResult` to the response view. -/
def trimRegime (r : RegimeResult) : TrimmedRegime :=
  ⟨r.taxableIncome, r.totalTax, r.effectiveRate, r.totalDeductions⟩

/-- The `taxNumbers` object of the response. -/
structure TaxNumbersView where
  old : TrimmedRegime
  new : TrimmedRegime
deriving DecidableEq

/-- One entry of the `sources` citation list (explain.js lines 179-184). -/
structure Source where
  file : String
  page : Option Nat
  chunk_id : Option Nat
  excerpt : String
deriving DecidableEq

/-- `sources = chunks.map(...)` (explain.js lines 179-184).  `||` treats an
empty file name and a zero page as falsy; `??` keeps a zero chunk id; the
excerpt is the first 150 characters with an ellipsis when truncated. -/
def mkSource (c : Chunk) : Source :=
  ⟨(match c.file with | some f => if f = "" then "unknown" else f | none => "unknown"),
   (match c.page with | some p => if p = 0 then none else some p | none => none),
   c.chunk_id,
   c.text.take 150 ++ (if 150 < c.text.length then "..." else "")⟩

/-- The externally visible success response (explain.js lines 186-208);
the timestamp (wall-clock) is not modelled. -/
structure ExplainResponse where
  verdict : String
  taxNumbers : TaxNumbersView
  savings : ℤ
  aiSummary : Option String
  bullets : List String
  sources : List Source
deriving DecidableEq

/-- The generation phase of the handler (explain.js lines 158-176): when a
real API key is configured, run the fallback chain and either take the
generated text (with extracted bullets) or a placeholder embedding the first
80 characters of the error message; otherwise a fixed instructional
placeholder.  Returns the attempt trace, the `aiSummary` value (`null` before
this phase, hence `Option`), and the bullets. -/
def genPhase (apiKeyConfigured : Bool) (b : String → ℕ → GenOutcome)
    (models : List String) : List Attempt × Option String × List String :=
  if apiKeyConfigured then
    match callGemini b models with
    | (tr, .ok text) => (tr, some text, extractBullets text)
    | (tr, .error e) =>
        (tr, some ("AI summary unavailable (" ++ e.message.take 80
            ++ "). Tax numbers above are deterministic."), [])
  else ([], some "Set GEMINI_API_KEY in .env to enable AI-powered explanations.", [])

/-- Which side effects ran during a request: whether `compareTaxRegimes` was
invoked, whether retrieval was attempted, and the generation attempts. -/
structure Effects where
  taxComputed : Bool
  retrievalAttempted : Bool
  genAttempts : List Attempt
deriving DecidableEq

/-- No downstream work at all (the early-return path). -/
def noEffects : Effects := ⟨false, false, []⟩

/-- Outcome of the route handler: a 400 validation error naming the invalid
fields, or a 200 success response. -/
inductive HandlerResult where
  | validationError (fields : List String)
  | success (resp : ExplainResponse)
deriving DecidableEq

/-- The assembled success response (explain.js lines 178-208). -/
def buildResponse (p : ParsedRequest) (chunks : List Chunk)
    (gen : List Attempt × Option String × List String) : ExplainResponse :=
  let taxNumbers := compareTaxRegimes p.salary p.deductions
  ⟨taxNumbers.betterRegime,
   ⟨trimRegime taxNumbers.old, trimRegime taxNumbers.new⟩,
   |taxNumbers.savings|,
   gen.2.1, gen.2.2, chunks.map mkSource⟩

/-- The `router.post('/')` handler (explain.js lines 132-226): validate,
compute tax numbers, recover from retrieval failure with an empty chunk set,
run the generation phase, assemble the response.  The fire-and-forget webhook
(lines 210-219) has no observable effect on the response and is not
modelled. -/
def handleExplain (raw : RawRequest) (ragResult : Except String (List Chunk))
    (apiKeyConfigured : Bool) (b : String → ℕ → GenOutcome) (models : List String) :
    HandlerResult × Effects :=
  match validateRequest raw with
  | .error fs => (.validationError fs, noEffects)
  | .ok p =>
      let chunks : List Chunk := match ragResult with | .ok l => l | .error _ => []
      let gen := genPhase apiKeyConfigured b models
      (.success (buildResponse p chunks gen), ⟨true, true, gen.1⟩)

/-! ### Facts about the generation fallback machine -/

theorem tryModelTwice_models (b : String → ℕ → GenOutcome) (m : String) :
    ∀ a ∈ (tryModelTwice b m).1, a.model = m := by
  intro a ha
  unfold tryModelTwice at ha
  cases hb : b m 0 with
  | ok t =>
    rw [hb] at ha
    simp at ha
    rw [ha]
  | failed e =>
    rw [hb] at ha
    by_cases h4 : e.is429
    · simp only [h4, if_true] at ha
      cases hb2 : b m 1 with
      | ok t2 =>
        rw [hb2] at ha
        simp at ha
        rcases ha with h | h <;> rw [h]
      | failed e2 =>
        rw [hb2] at ha
        simp at ha
        rcases ha with h | h <;> rw [h]
    · simp only [h4, if_false, Bool.false_eq_true] at ha
      simp at ha
      rw [ha]

theorem tryModelTwice_length (b : String → ℕ → GenOutcome) (m : String) :
    (tryModelTwice b m).1.length ≤ 2 := by
  unfold tryModelTwice
  cases hb : b m 0 with
  | ok t => simp
  | failed e =>
    by_cases h4 : e.is429
    · simp only [h4, if_true]
      cases hb2 : b m 1 with
      | ok t2 => simp
      | failed e2 => simp
    · simp [h4]

theorem callGeminiFrom_models (b : String → ℕ → GenOutcome) :
    ∀ (models : List String) (lastE : GenError),
      ∀ a ∈ (callGeminiFrom b lastE models).1, a.model ∈ models := by
  intro models
  induction models with
  | nil => intro lastE a ha; simp [callGeminiFrom] at ha
  | cons m rest ih =>
    intro lastE a ha
    unfold callGeminiFrom at ha
    rcases htm : tryModelTwice b m with ⟨as, r⟩
    rw [htm] at ha
    have hmod : ∀ x ∈ as, x.model = m := by
      have h := tryModelTwice_models b m
      rw [htm] at h
      exact h
    cases r with
    | ok t =>
      simp at ha
      rw [hmod a ha]
      exact List.mem_cons_self _ _
    | error e =>
      simp at ha
      rcases ha with h | h
      · rw [hmod a h]
        exact List.mem_cons_self _ _
      · exact List.mem_cons_of_mem _ (ih e a h)

theorem callGeminiFrom_filter_le_two (b : String → ℕ → GenOutcome) (m : String) :
    ∀ models : List String, models.Nodup → ∀ lastE : GenError,
      (((callGeminiFrom b lastE models).1.filter (fun a => a.model == m)).length ≤ 2) := by
  intro models
  induction models with
  | nil => intro _ lastE; simp [callGeminiFrom]
  | cons m0 rest ih =>
    intro hnd lastE
    obtain ⟨hm0, hnd'⟩ := List.nodup_cons.mp hnd
    have hmod : ∀ x ∈ (tryModelTwice b m0).1, x.model = m0 := tryModelTwice_models b m0
    have hlen : (tryModelTwice b m0).1.length ≤ 2 := tryModelTwice_length b m0
    unfold callGeminiFrom
    rcases htm : tryModelTwice b m0 with ⟨as, r⟩
    rw [htm] at hmod hlen
    cases r with
    | ok t =>
      show ((as.filter (fun a => a.model == m)).length ≤ 2)
      exact le_trans (List.length_filter_le _ _) hlen
    | error e =>
      show (((as ++ (callGeminiFrom b e rest).1).filter (fun a => a.model == m)).length ≤ 2)
      rw [List.filter_append, List.length_append]
      by_cases hmm : m = m0
      · subst hmm
        have hrec : ((callGeminiFrom b e rest).1.filter (fun a => a.model == m)).length = 0 := by
          rw [List.length_eq_zero, List.filter_eq_nil_iff]
          intro x hx
          simp only [beq_iff_eq]
          intro hxm
          have hxr := callGeminiFrom_models b rest e x hx
          rw [hxm] at hxr
          exact hm0 hxr
        have h1 : (as.filter (fun a => a.model == m)).length ≤ 2 :=
          le_trans (List.length_filter_le _ _) hlen
        omega
      · have h0 : (as.filter (fun a => a.model == m)).length = 0 := by
          rw [List.length_eq_zero, List.filter_eq_nil_iff]
          intro x hx
          simp only [beq_iff_eq]
          intro hxm
          exact hmm (hxm.symm.trans (hmod x hx))
        have h2 := ih hnd' e
        omega

theorem callGeminiFrom_cons (b : String → ℕ → GenOutcome) (lastE : GenError)
    (m : String) (rest : List String) :
    callGeminiFrom b lastE (m :: rest)
      = (match tryModelTwice b m with
         | (as, .ok t) => (as, .ok t)
         | (as, .error e) =>
             (as ++ (callGeminiFrom b e rest).1, (callGeminiFrom b e rest).2)) := rfl

/-- Claim C7: in the generation fallback state machine, each candidate model
is attempted at most 2 times; a rate-limit error on the first attempt causes
a delay of `ceil(hint) * 1000` ms when the error message carries a
"retry in N seconds" hint and 10000 ms otherwise, followed by one retry of
the same model; a non-rate-limit failure ends the model after one attempt;
after a failed model the loop advances to the next candidate; and when the
first candidate always signals rate-limit while the second succeeds on its
first attempt, the final result is the second model's output and the first
model was attempted exactly twice. -/
theorem generation_fallback_policy :
    (∀ (b : String → ℕ → GenOutcome) (models : List String) (m : String),
       models.Nodup →
       (((callGemini b models).1.filter (fun a => a.model == m)).length ≤ 2)) ∧
    (∀ (e : GenError) (s : ℚ), e.retryHintSec = some s →
       parseRetryDelay e = Int.ceil s * 1000) ∧
    (∀ e : GenError, e.retryHintSec = none → parseRetryDelay e = 10000) ∧
    (∀ (b : String → ℕ → GenOutcome) (m : String) (e : GenError),
       b m 0 = .failed e → e.is429 = true →
       (tryModelTwice b m).1 = [⟨m, 0, some (parseRetryDelay e)⟩, ⟨m, 1, none⟩]) ∧
    (∀ (b : String → ℕ → GenOutcome) (m : String) (e : GenError),
       b m 0 = .failed e → e.is429 = false →
       tryModelTwice b m = ([⟨m, 0, none⟩], .error e)) ∧
    (∀ (b : String → ℕ → GenOutcome) (lastE e : GenError) (m : String)
       (rest : List String) (as : List Attempt),
       tryModelTwice b m = (as, .error e) →
       callGeminiFrom b lastE (m :: rest)
         = (as ++ (callGeminiFrom b e rest).1, (callGeminiFrom b e rest).2)) ∧
    (∀ (b : String → ℕ → GenOutcome) (m1 m2 : String) (e1 e2 : GenError) (t : String),
       m1 ≠ m2 →
       b m1 0 = .failed e1 → e1.is429 = true →
       b m1 1 = .failed e2 → e2.is429 = true →
       b m2 0 = .ok t →
       (callGemini b [m1, m2]).2 = .ok t ∧
       ((callGemini b [m1, m2]).1.filter (fun a => a.model == m1)).length = 2) := by
  refine ⟨?_, ?_, ?_, ?_, ?_, ?_, ?_⟩
  · intro b models m hnd
    exact callGeminiFrom_filter_le_two b m models hnd beforeAnyError
  · intro e s hs
    unfold parseRetryDelay
    rw [hs]
  · intro e hs
    unfold parseRetryDelay
    rw [hs]
    show (10 * 1000 : ℤ) = 10000
    norm_num
  · intro b m e hb h4
    unfold tryModelTwice
    rw [hb]
    simp only [h4, if_true]
    cases hb2 : b m 1 with
    | ok t2 => rfl
    | failed e2 => rfl
  · intro b m e hb h4
    unfold tryModelTwice
    rw [hb]
    simp [h4]
  · intro b lastE e m rest as htm
    rw [callGeminiFrom_cons, htm]
  · intro b m1 m2 e1 e2 t hne h10 h1is h11 h2is h20
    have htm1 : tryModelTwice b m1
        = ([⟨m1, 0, some (parseRetryDelay e1)⟩, ⟨m1, 1, none⟩], .error e2) := by
      unfold tryModelTwice
      rw [h10]
      simp only [h1is, if_true]
      rw [h11]
    have htm2 : tryModelTwice b m2 = ([⟨m2, 0, none⟩], .ok t) := by
      unfold tryModelTwice
      rw [h20]
    have hcall : callGemini b [m1, m2]
        = ([⟨m1, 0, some (parseRetryDelay e1)⟩, ⟨m1, 1, none⟩] ++ [⟨m2, 0, none⟩], .ok t) := by
      unfold callGemini
      rw [callGeminiFrom_cons, htm1]
      show ([⟨m1, 0, some (parseRetryDelay e1)⟩, ⟨m1, 1, none⟩]
              ++ (callGeminiFrom b e2 [m2]).1, (callGeminiFrom b e2 [m2]).2)
          = ([⟨m1, 0, some (parseRetryDelay e1)⟩, ⟨m1, 1, none⟩] ++ [⟨m2, 0, none⟩], .ok t)
      rw [callGeminiFrom_cons, htm2]
    constructor
    · rw [hcall]
    · rw [hcall]
      have hm1 : (m1 == m1) = true := beq_self_eq_true m1
      have hm2 : (m2 == m1) = false := by
        simp only [beq_eq_false_iff_ne]
        exact Ne.symm hne
      simp [List.filter_cons, hm1, hm2]

/-- A behaviour where the first model always rate-limits (with a 3-second
retry hint) and the second model answers at once. -/
def rateLimitedThenOk : String → ℕ → GenOutcome :=
  fun m _ =>
    if m = "gemini-1.5-pro" then .ok "second answer"
    else .failed ⟨true, some 3, "429 Too Many Requests, retry in 3s"⟩

/-- Witness for C7 at concrete behaviours and model lists. -/
theorem generation_fallback_policy_witness :
    (((callGemini rateLimitedThenOk ["gemini-1.5-flash", "gemini-1.5-pro"]).1.filter
        (fun a => a.model == "gemini-1.5-flash")).length ≤ 2) ∧
    parseRetryDelay ⟨true, some 3, "429 Too Many Requests, retry in 3s"⟩ = 3000 ∧
    parseRetryDelay ⟨true, none, "429"⟩ = 10000 ∧
    (tryModelTwice rateLimitedThenOk "gemini-1.5-flash").1
      = [⟨"gemini-1.5-flash", 0,
            some (parseRetryDelay ⟨true, some 3, "429 Too Many Requests, retry in 3s"⟩)⟩,
         ⟨"gemini-1.5-flash", 1, none⟩] ∧
    tryModelTwice (fun _ _ => .failed ⟨false, none, "auth"⟩) "gemini-1.5-flash"
      = ([⟨"gemini-1.5-flash", 0, none⟩], .error ⟨false, none, "auth"⟩) ∧
    callGeminiFrom rateLimitedThenOk beforeAnyError ["gemini-1.5-flash", "gemini-1.5-pro"]
      = ([⟨"gemini-1.5-flash", 0,
              some (parseRetryDelay ⟨true, some 3, "429 Too Many Requests, retry in 3s"⟩)⟩,
          ⟨"gemini-1.5-flash", 1, none⟩]
          ++ (callGeminiFrom rateLimitedThenOk
                ⟨true, some 3, "429 Too Many Requests, retry in 3s"⟩ ["gemini-1.5-pro"]).1,
         (callGeminiFrom rateLimitedThenOk
            ⟨true, some 3, "429 Too Many Requests, retry in 3s"⟩ ["gemini-1.5-pro"]).2) ∧
    (callGemini rateLimitedThenOk ["gemini-1.5-flash", "gemini-1.5-pro"]).2
      = .ok "second answer" ∧
    ((callGemini rateLimitedThenOk ["gemini-1.5-flash", "gemini-1.5-pro"]).1.filter
        (fun a => a.model == "gemini-1.5-flash")).length = 2 := by
  have hpol := generation_fallback_policy
  have hscen := hpol.2.2.2.2.2.2 rateLimitedThenOk "gemini-1.5-flash" "gemini-1.5-pro"
    ⟨true, some 3, "429 Too Many Requests, retry in 3s"⟩
    ⟨true, some 3, "429 Too Many Requests, retry in 3s"⟩
    "second answer" (by decide) rfl rfl rfl rfl rfl
  refine ⟨hpol.1 rateLimitedThenOk ["gemini-1.5-flash", "gemini-1.5-pro"]
            "gemini-1.5-flash" (by decide), ?_, ?_, ?_, ?_, ?_, hscen.1, hscen.2⟩
  · have h := hpol.2.1 ⟨true, some 3, "429 Too Many Requests, retry in 3s"⟩ 3 rfl
    rw [h]
    norm_num
  · exact hpol.2.2.1 ⟨true, none, "429"⟩ rfl
  · exact hpol.2.2.2.1 rateLimitedThenOk "gemini-1.5-flash"
      ⟨true, some 3, "429 Too Many Requests, retry in 3s"⟩ rfl rfl
  · exact hpol.2.2.2.2.1 (fun _ _ => .failed ⟨false, none, "auth"⟩) "gemini-1.5-flash"
      ⟨false, none, "auth"⟩ rfl rfl
  · exact hpol.2.2.2.2.2.1 rateLimitedThenOk beforeAnyError
      ⟨true, some 3, "429 Too Many Requests, retry in 3s"⟩ "gemini-1.5-flash"
      ["gemini-1.5-pro"]
      [⟨"gemini-1.5-flash", 0,
          some (parseRetryDelay ⟨true, some 3, "429 Too Many Requests, retry in 3s"⟩)⟩,
       ⟨"gemini-1.5-flash", 1, none⟩] rfl

/-! ### Claims about the route handler -/

theorem genPhase_aiSummary_isSome (key : Bool) (b : String → ℕ → GenOutcome)
    (models : List String) : (genPhase key b models).2.1.isSome = true := by
  unfold genPhase
  by_cases hkey : key
  · simp only [hkey, if_true]
    rcases hcg : callGemini b models with ⟨tr, r⟩
    cases r with
    | ok t => rfl
    | error e => rfl
  · simp [hkey]

/-- Claim C6: for every request that passes validation, if the retrieval
call fails with any error, the handler still returns a success response whose
`sources` list is empty, whose `taxNumbers` are the fully computed
deterministic figures of `compareTaxRegimes`, and whose `aiSummary` is a
non-null string. -/
theorem retrieval_failure_resilience (raw : RawRequest) (p : ParsedRequest)
    (emsg : String) (key : Bool) (b : String → ℕ → GenOutcome) (models : List String)
    (hv : validateRequest raw = .ok p) :
    ∃ resp : ExplainResponse,
      (handleExplain raw (.error emsg) key b models).1 = .success resp ∧
      resp.sources = [] ∧
      resp.aiSummary.isSome = true ∧
      resp.taxNumbers = ⟨trimRegime (compareTaxRegimes p.salary p.deductions).old,
                         trimRegime (compareTaxRegimes p.salary p.deductions).new⟩ ∧
      resp.verdict = (compareTaxRegimes p.salary p.deductions).betterRegime ∧
      resp.savings = |(compareTaxRegimes p.salary p.deductions).savings| := by
  refine ⟨buildResponse p [] (genPhase key b models), ?_, rfl,
          genPhase_aiSummary_isSome key b models, rfl, rfl, rfl⟩
  unfold handleExplain
  rw [hv]

/-- Witness for C6: a valid request whose retrieval collaborator raises. -/
theorem retrieval_failure_resilience_witness :
    ∃ resp : ExplainResponse,
      (handleExplain ⟨some (.num 1000000), none, none⟩ (.error "chroma down") true
          (fun _ _ => .ok "summary") ["gemini-1.5-flash"]).1 = .success resp ∧
      resp.sources = [] ∧
      resp.aiSummary.isSome = true ∧
      resp.taxNumbers
        = ⟨trimRegime (compareTaxRegimes (1000000 : ℚ) ⟨0, 0, 0, 0⟩).old,
           trimRegime (compareTaxRegimes (1000000 : ℚ) ⟨0, 0, 0, 0⟩).new⟩ ∧
      resp.verdict = (compareTaxRegimes (1000000 : ℚ) ⟨0, 0, 0, 0⟩).betterRegime ∧
      resp.savings = |(compareTaxRegimes (1000000 : ℚ) ⟨0, 0, 0, 0⟩).savings| :=
  retrieval_failure_resilience ⟨some (.num 1000000), none, none⟩
    ⟨1000000, ⟨0, 0, 0, 0⟩, none⟩ "chroma down" true (fun _ _ => .ok "summary")
    ["gemini-1.5-flash"] rfl

/-- Claim C8: whenever `salary` is missing, non-numeric or not positive, or
any deduction field violates its type or bound constraints, the handler
returns a validation error naming the invalid fields and performs no tax
computation, no retrieval and no generation. -/
theorem invalid_input_rejection (raw : RawRequest) (rag : Except String (List Chunk))
    (key : Bool) (b : String → ℕ → GenOutcome) (models : List String)
    (h : salaryErrors raw ≠ [] ∨
         (validateDeductions (raw.deductions.getD emptyRawDeductions)).1 ≠ []) :
    ∃ fs, handleExplain raw rag key b models = (.validationError fs, noEffects) ∧
      (∀ n ∈ salaryErrors raw, n ∈ fs) ∧
      (∀ n ∈ (validateDeductions (raw.deductions.getD emptyRawDeductions)).1, n ∈ fs) ∧
      noEffects.taxComputed = false ∧
      noEffects.retrievalAttempted = false ∧
      noEffects.genAttempts = [] := by
  have herrs : salaryErrors raw
      ++ (validateDeductions (raw.deductions.getD emptyRawDeductions)).1
      ++ queryErrors raw ≠ [] := by
    intro he
    rcases List.append_eq_nil.mp he with ⟨he1, _⟩
    rcases List.append_eq_nil.mp he1 with ⟨hs, hd⟩
    rcases h with h | h
    · exact h hs
    · exact h hd
  have hv : validateRequest raw
      = .error (salaryErrors raw
          ++ (validateDeductions (raw.deductions.getD emptyRawDeductions)).1
          ++ queryErrors raw) := by
    unfold validateRequest
    cases hs : raw.salary with
    | none => rfl
    | some jf =>
      cases jf with
      | num q =>
        show (if 0 < q ∧ salaryErrors raw
                ++ (validateDeductions (raw.deductions.getD emptyRawDeductions)).1
                ++ queryErrors raw = []
              then Except.ok (ParsedRequest.mk q
                     (validateDeductions (raw.deductions.getD emptyRawDeductions)).2
                     (parsedQuery raw))
              else Except.error (salaryErrors raw
                ++ (validateDeductions (raw.deductions.getD emptyRawDeductions)).1
                ++ queryErrors raw)) = _
        rw [if_neg (fun hc => herrs hc.2)]
      | str s => rfl
      | other => rfl
  refine ⟨salaryErrors raw
      ++ (validateDeductions (raw.deductions.getD emptyRawDeductions)).1
      ++ queryErrors raw, ?_, ?_, ?_, rfl, rfl, rfl⟩
  · unfold handleExplain
    rw [hv]
  · intro n hn
    exact List.mem_append_left _ (List.mem_append_left _ hn)
  · intro n hn
    exact List.mem_append_left _ (List.mem_append_right _ hn)

/-- A request whose salary is a string and whose `section80C` exceeds its
bound: two invalid fields at once. -/
def badRequest : RawRequest :=
  ⟨some (.str "abc"), some ⟨some (.num 999999), none, none, none⟩, none⟩

/-- Witness for C8 at a concrete invalid request. -/
theorem invalid_input_rejection_witness :
    ∃ fs, handleExplain badRequest (.ok []) false (fun _ _ => .ok "x") []
        = (.validationError fs, noEffects) ∧
      "salary" ∈ fs ∧ "deductions.section80C" ∈ fs := by
  obtain ⟨fs, h1, h2, h3, _⟩ :=
    invalid_input_rejection badRequest (.ok []) false (fun _ _ => .ok "x") []
      (Or.inl (by decide))
  exact ⟨fs, h1, h2 "salary" (by decide), h3 "deductions.section80C" (by decide)⟩

/-! ### Claim C9: bullet extraction -/

theorem chain_eq_filterMap {α β : Type} (p : α → Bool) (f : α → β) (q : β → Bool)
    (g : β → String) (l : List α) :
    (((l.filter p).map f).filter q).map g
      = l.filterMap (fun a =>
          if p a then (if q (f a) then some (g (f a)) else none) else none) := by
  induction l with
  | nil => rfl
  | cons x xs ih =>
    by_cases hp : p x
    · by_cases hq : q (f x)
      · simp [List.filter_cons, hp, hq, List.filterMap_cons, ih]
      · simp [List.filter_cons, hp, hq, List.filterMap_cons, ih]
    · simp [List.filter_cons, hp, List.filterMap_cons, ih]

/-- Claim C9, amended: the bullets are exactly the lines whose
whitespace-trimmed form begins with a bullet marker (dash, bullet glyph,
asterisk, or digit), in order; the leading marker run (and its trailing
whitespace) is stripped only when it starts at the very first character of
the raw line — an indented bullet line keeps its marker — and each result is
trimmed, with empty results dropped. -/
theorem bullets_extraction_corrected (text : String) :
    extractBullets text = extractBulletsAmended text := by
  unfold extractBullets extractBulletsAmended
  rw [chain_eq_filterMap]
  refine congrArg (fun f => List.filterMap f (splitLines text)) (funext fun l => ?_)
  by_cases hp : startsWithBullet (trimChars l)
  · by_cases hq : (trimChars (stripMarker l)).isEmpty <;> simp [hp, hq]
  · simp [hp]

/-- Counterexample to C9 as stated: on the indented line `"  - tip"` the code
selects the line (the trim-then-match filter) but does not strip its marker
(the anchored replace fails on the leading spaces), producing `"- tip"`,
whereas the claim's description — lines that begin with a bullet marker, with
the marker stripped — produces nothing at all for this line. -/
theorem bullets_extraction_counterexample :
    extractBullets "  - tip" = ["- tip"] ∧
    extractBulletsClaim "  - tip" = [] ∧
    extractBullets "  - tip" ≠ extractBulletsClaim "  - tip" := by
  refine ⟨by decide, by decide, by decide⟩
